import Mathlib

/-!
Shallow embedding of the schema-introspection and field-resolution engine of
the react-rhf-zod-form library (src/src/utils/zod.ts, src/src/utils/form.ts,
src/src/SnowFormField.tsx, src/src/ArrayFieldRenderer.tsx,
src/src/registry/componentRegistry.tsx and the setup surface), together with
theorems settling the specification claims about it.
-/

namespace SnowForm

/-- Model of a JavaScript runtime value as it flows through the form engine:
strings, numbers, booleans, `null` and `undefined`. -/
inductive JSValue where
  | str (s : String)
  | num (n : Int)
  | bool (b : Bool)
  | null
  | undefined
  deriving DecidableEq, Repr

/-- A JavaScript object restricted to lookup semantics: a key is either absent
(`none`) or present with a value (which may itself be `JSValue.undefined`). -/
def JSObj : Type := String → Option JSValue

/-- The empty object. -/
def emptyObj : JSObj := fun _ => none

/-- Property assignment `o[k] = v` (overwrites any previous binding). -/
def objSet (o : JSObj) (k : String) (v : JSValue) : JSObj :=
  fun k2 => if k2 = k then some v else o k2

/-- JavaScript property read `o[k]`: a missing key reads as `undefined`. -/
def jsIndex (o : JSObj) (k : String) : JSValue :=
  (o k).getD .undefined

mutual

/-- The Zod schema nodes this engine inspects (src/src/utils/zod.ts):
base shapes, wrapper shapes peeled by `unwrapSchema`, unions and literals.
`str` carries the list of check kinds (`_def.checks[i].kind`), `other` stands
for any Zod shape the engine does not special-case (object, record, ...). -/
inductive SchemaNode where
  | str (checks : List String)
  | number
  | boolean
  | date
  | enumN (values : List String)
  | arrayN (elem : SchemaNode)
  | literal
  | other
  | optional (inner : SchemaNode)
  | nullable (inner : SchemaNode)
  | withDefault (inner : SchemaNode)
  | effect (inner : SchemaNode)
  | union (options : SchemaNodes)

/-- Ordered sequence of union options (`_def.options`). -/
inductive SchemaNodes where
  | nil
  | cons (head : SchemaNode) (tail : SchemaNodes)

end

/-- The options of a union as a Lean list, in declaration order. -/
def SchemaNodes.toList : SchemaNodes → List SchemaNode
  | .nil => []
  | .cons h t => h :: t.toList

/-- `node instanceof z.ZodLiteral`. -/
def SchemaNode.isLit : SchemaNode → Bool
  | .literal => true
  | _ => false

mutual

/-- `isOptional` from src/src/utils/zod.ts lines 13-30: true for Optional and
Nullable; for a Union, true when some option is a Literal or is itself
optional (recursively); false for every other shape. -/
def isOptional : SchemaNode → Bool
  | .optional _ => true
  | .nullable _ => true
  | .union opts => isOptionalAnyOption opts
  | _ => false

/-- The `for (const option of options)` loop body of `isOptional`. -/
def isOptionalAnyOption : SchemaNodes → Bool
  | .nil => false
  | .cons o rest => o.isLit || isOptional o || isOptionalAnyOption rest

end

mutual

/-- `unwrapSchema` from src/src/utils/zod.ts lines 35-67: peels Optional,
Nullable, Default and Effects wrappers; on a Union, returns the unwrapped form
of the first option whose unwrapped form is not a Literal, or the Union itself
when every option unwraps to a Literal. -/
def unwrapSchema : SchemaNode → SchemaNode
  | .optional i => unwrapSchema i
  | .nullable i => unwrapSchema i
  | .withDefault i => unwrapSchema i
  | .effect i => unwrapSchema i
  | .union opts =>
      match findFirstNonLiteralUnwrapped opts with
      | some u => u
      | none => .union opts
  | n => n

/-- The `for (const option of options)` loop of `unwrapSchema`: the unwrapped
form of the first option whose unwrapped form is not a Literal. -/
def findFirstNonLiteralUnwrapped : SchemaNodes → Option SchemaNode
  | .nil => none
  | .cons o rest =>
      let u := unwrapSchema o
      if u.isLit then findFirstNonLiteralUnwrapped rest else some u

end

deriving instance DecidableEq for SchemaNode

/-- The `baseType` vocabulary of `SchemaFieldInfo` (src/unnamed/part_010,
`SchemaFieldBaseType`). -/
inductive BaseType where
  | string
  | number
  | boolean
  | enum
  | array
  | date
  | unknown
  deriving DecidableEq, Repr

/-- The `SchemaFieldInfo` interface (src/unnamed/part_010 lines 332-343):
`enumValues` and `arrayElementInfo` are optional properties, modelled as
`Option` (absent = `none`). -/
inductive SchemaFieldInfo where
  | mk (baseType : BaseType) (isOptional : Bool) (isEmail : Bool)
      (enumValues : Option (List String)) (arrayElementInfo : Option SchemaFieldInfo)

/-- Projection: `baseType`. -/
@[simp] def SchemaFieldInfo.baseType : SchemaFieldInfo → BaseType
  | .mk b _ _ _ _ => b

/-- Projection: `isOptional`. -/
@[simp] def SchemaFieldInfo.isOptionalFlag : SchemaFieldInfo → Bool
  | .mk _ o _ _ _ => o

/-- Projection: `isEmail`. -/
@[simp] def SchemaFieldInfo.isEmail : SchemaFieldInfo → Bool
  | .mk _ _ e _ _ => e

/-- Projection: `enumValues`. -/
@[simp] def SchemaFieldInfo.enumValues : SchemaFieldInfo → Option (List String)
  | .mk _ _ _ vs _ => vs

/-- Projection: `arrayElementInfo`. -/
@[simp] def SchemaFieldInfo.arrayElementInfo : SchemaFieldInfo → Option SchemaFieldInfo
  | .mk _ _ _ _ ei => ei

/-- `isEmailString` from src/src/utils/zod.ts lines 72-75: whether the checks
list of a ZodString contains a check of kind `email`. -/
def isEmailString (checks : List String) : Bool :=
  checks.any (fun c => c = "email")

/-- `getZodFieldInfo` from src/src/utils/zod.ts lines 101-131: unwraps the
field once, pattern-matches the unwrapped node into a base type (with
`enumValues` copied verbatim for enums and `isEmail` for strings), and takes
optionality from `isOptional` applied to the original field. The function
never populates `arrayElementInfo`. -/
def getZodFieldInfo (field : SchemaNode) : SchemaFieldInfo :=
  match unwrapSchema field with
  | .str checks => .mk .string (isOptional field) (isEmailString checks) none none
  | .number => .mk .number (isOptional field) false none none
  | .boolean => .mk .boolean (isOptional field) false none none
  | .enumN vs => .mk .enum (isOptional field) false (some vs) none
  | .date => .mk .date (isOptional field) false none none
  | .arrayN _ => .mk .array (isOptional field) false none none
  | _ => .mk .unknown (isOptional field) false none none

/-- The per-field override configuration (`FieldConfig`), restricted to the
properties the verified functions read: `type`, the three empty-value
directives, and whether a custom `render` function is supplied. -/
structure FieldConfig where
  type : Option String
  emptyAsNull : Bool
  emptyAsUndefined : Bool
  emptyAsZero : Bool
  hasRender : Bool
  deriving DecidableEq, Repr

/-- The override with no properties set. -/
def FieldConfig.empty : FieldConfig :=
  ⟨none, false, false, false, false⟩

/-- The `switch (fieldInfo.baseType)` of `resolveFieldType`
(src/src/utils/form.ts lines 112-125). -/
def autoFieldType (fieldInfo : SchemaFieldInfo) : String :=
  match fieldInfo.baseType with
  | .string => if fieldInfo.isEmail then "email" else "text"
  | .number => "number"
  | .boolean => "checkbox"
  | .date => "date"
  | .enum => "select"
  | _ => "text"

/-- `resolveFieldType` from src/src/utils/form.ts lines 107-126: an explicit
override type wins; otherwise the base type maps to a built-in tag. -/
def resolveFieldType (fieldInfo : SchemaFieldInfo) (override : Option FieldConfig) : String :=
  match override with
  | some o =>
    match o.type with
    | some t => t
    | none => autoFieldType fieldInfo
  | none => autoFieldType fieldInfo

/-- The `switch (fieldInfo.baseType)` of `initializeDefaultValues`
(src/src/utils/form.ts lines 33-56): the synthesized default for one field,
given its classification and its override. -/
def synthDefaultValue (fieldInfo : SchemaFieldInfo) (override : Option FieldConfig) : JSValue :=
  match fieldInfo.baseType with
  | .string =>
      if (override.map FieldConfig.emptyAsNull).getD false then .null
      else if (override.map FieldConfig.emptyAsUndefined).getD false then .undefined
      else .str ""
  | .number =>
      if (override.map FieldConfig.emptyAsZero).getD false then .num 0
      else if (override.map FieldConfig.emptyAsNull).getD false then .null
      else if (override.map FieldConfig.emptyAsUndefined).getD false then .undefined
      else .null
  | .boolean => .bool false
  | .date => .null
  | .enum => .undefined
  | _ => .undefined

/-- One iteration of the `reduce` in `initializeDefaultValues`
(src/src/utils/form.ts lines 21-61): use the provided value when the indexed
read is not `undefined`, otherwise the synthesized default. -/
def initStep (provided : JSObj) (overrides : String → Option FieldConfig)
    (acc : JSObj) (kf : String × SchemaNode) : JSObj :=
  if jsIndex provided kf.1 ≠ .undefined then
    objSet acc kf.1 (jsIndex provided kf.1)
  else
    objSet acc kf.1 (synthDefaultValue (getZodFieldInfo kf.2) (overrides kf.1))

/-- `initializeDefaultValues` from src/src/utils/form.ts lines 15-68: folds
the schema shape into a default map, then overlays the provided values with
spread semantics (a provided binding wins, even one bound to `undefined`). -/
def initializeDefaultValues (schemaShape : List (String × SchemaNode))
    (providedValues : JSObj) (overrides : String → Option FieldConfig) : JSObj :=
  let defaultValues := schemaShape.foldl (initStep providedValues overrides) emptyObj
  fun k => (providedValues k).orElse (fun _ => defaultValues k)

/-- The `isEmptyString` test of `applyEmptyValueOverrides`
(src/src/utils/form.ts line 89): `value === ''` or a string whose trim is
empty. -/
def isEmptyStringJS (v : JSValue) : Bool :=
  match v with
  | .str s => s = "" || s.trim = ""
  | _ => false

/-- `value === null`. -/
def jsIsNull : JSValue → Bool
  | .null => true
  | _ => false

/-- `value === undefined`. -/
def jsIsUndefined : JSValue → Bool
  | .undefined => true
  | _ => false

/-- The per-field body of the loop in `applyEmptyValueOverrides`
(src/src/utils/form.ts lines 84-98): `emptyAsNull` and `emptyAsUndefined`
fire on empty strings, `emptyAsZero` also on `null`/`undefined`; a field with
no override is skipped. -/
def transformValue (override : Option FieldConfig) (v : JSValue) : JSValue :=
  match override with
  | none => v
  | some o =>
      if o.emptyAsNull && isEmptyStringJS v then .null
      else if o.emptyAsUndefined && isEmptyStringJS v then .undefined
      else if o.emptyAsZero && (jsIsNull v || jsIsUndefined v || isEmptyStringJS v) then .num 0
      else v

/-- `applyEmptyValueOverrides` from src/src/utils/form.ts lines 78-101,
on an object given as its (unique-keyed) entry list: every entry is rewritten
by the loop body for its own override. -/
def applyEmptyValueOverrides (values : List (String × JSValue))
    (overrides : String → Option FieldConfig) : List (String × JSValue) :=
  values.map (fun kv => (kv.1, transformValue (overrides kv.1) kv.2))

/-- A renderable control implementation: either a caller-registered control
(identified abstractly) or one of the built-in default components of
src/src/SnowFormField.tsx lines 23-69. -/
inductive Component where
  | custom (id : Nat)
  | defaultInput
  | emailInput
  | passwordInput
  | timeInput
  | dateTimeLocalInput
  | telInput
  | urlInput
  | colorInput
  | fileInput
  | defaultTextarea
  | defaultSelect
  | defaultCheckbox
  | defaultRadio
  | defaultNumberInput
  | defaultDatePicker
  deriving DecidableEq, Repr

/-- Developer-facing diagnostics (`console.warn` calls), carrying the data the
emitted message names. -/
inductive Diagnostic where
  | noComponentForType (t : String)
  | noComponentForArrayElementType (t : String)
  | duplicateSetupCall
  deriving DecidableEq, Repr

/-- `getDefaultComponent` from src/src/SnowFormField.tsx lines 32-69: the
built-in default component for a type tag, `none` for `hidden` and for any
unrecognized tag. -/
def getDefaultComponent (t : String) : Option Component :=
  if t = "text" then some .defaultInput
  else if t = "email" then some .emailInput
  else if t = "password" then some .passwordInput
  else if t = "time" then some .timeInput
  else if t = "datetime-local" then some .dateTimeLocalInput
  else if t = "tel" then some .telInput
  else if t = "url" then some .urlInput
  else if t = "color" then some .colorInput
  else if t = "file" then some .fileInput
  else if t = "textarea" then some .defaultTextarea
  else if t = "select" then some .defaultSelect
  else if t = "checkbox" then some .defaultCheckbox
  else if t = "radio" then some .defaultRadio
  else if t = "number" then some .defaultNumberInput
  else if t = "date" then some .defaultDatePicker
  else none

/-- What `SnowFormField` renders for one field. -/
inductive RenderedField where
  | hiddenInput
  | customRendered
  | control (c : Component)
  deriving DecidableEq, Repr

/-- Result of rendering one field: the rendered output (`none` mirrors the
`return null` path) and the diagnostics emitted on the way. -/
structure RenderOutcome where
  rendered : Option RenderedField
  diagnostics : List Diagnostic
  deriving DecidableEq, Repr

/-- The dispatch skeleton of `SnowFormField` (src/src/SnowFormField.tsx lines
102-213): resolve the type; `hidden` renders a bare hidden input; a custom
`render` override wins next; otherwise the control is
`getRegisteredComponent(fieldType) ?? getDefaultComponent(fieldType)`, and
only when both are absent does the field render nothing with a warning. -/
def renderSnowFormField (registry : String → Option Component)
    (fieldInfo : SchemaFieldInfo) (override : Option FieldConfig) : RenderOutcome :=
  let fieldType := resolveFieldType fieldInfo override
  if fieldType = "hidden" then ⟨some .hiddenInput, []⟩
  else if (override.map FieldConfig.hasRender).getD false then ⟨some .customRendered, []⟩
  else
    match (registry fieldType).orElse (fun _ => getDefaultComponent fieldType) with
    | some c => ⟨some (.control c), []⟩
    | none => ⟨none, [.noComponentForType fieldType]⟩

/-- The component lookup at the head of `ArrayFieldRenderer`
(src/src/ArrayFieldRenderer.tsx lines 40-49): the element control comes from
the registry only — there is no default fallback — and its absence renders
nothing with a warning naming the element type. -/
def arrayElementDispatch (registry : String → Option Component)
    (arrayElementInfo : SchemaFieldInfo) (override : Option FieldConfig) :
    Option Component × List Diagnostic :=
  let elementType := resolveFieldType arrayElementInfo override
  match registry elementType with
  | some c => (some c, [])
  | none => (none, [.noComponentForArrayElementType elementType])

/-- `getDefaultValue` from src/src/ArrayFieldRenderer.tsx lines 53-66: the
value appended by the array Add action, keyed by the element base type. -/
def getDefaultValue (arrayElementInfo : SchemaFieldInfo) : JSValue :=
  match arrayElementInfo.baseType with
  | .string => .str ""
  | .number => .num 0
  | .boolean => .bool false
  | .enum =>
      match arrayElementInfo.enumValues with
      | some (v :: _) => .str v
      | _ => .str ""
  | _ => .str ""

/-- The Add button handler of `ArrayFieldRenderer`
(src/src/ArrayFieldRenderer.tsx line 107): `[...arrayValue, getDefaultValue()]`. -/
def addArrayItem (arrayElementInfo : SchemaFieldInfo) (arrayValue : List JSValue) :
    List JSValue :=
  arrayValue ++ [getDefaultValue arrayElementInfo]

/-- The remove handler of `ArrayFieldRenderer`
(src/src/ArrayFieldRenderer.tsx line 96): `arrayValue.filter((_, i) => i !== index)`. -/
def removeArrayItem (arrayValue : List JSValue) (index : Nat) : List JSValue :=
  ((arrayValue.enum.filter (fun p => p.1 ≠ index)).map Prod.snd)

/-- Following the spec's §4.4 single-value policy table (no-override column),
for comparison with the renderer's own `getDefaultValue`: empty string for
string, `null` for number and date, `false` for boolean, `undefined` for
enum, array and unknown. -/
def specSingleValueDefault : BaseType → JSValue
  | .string => .str ""
  | .number => .null
  | .boolean => .bool false
  | .date => .null
  | .enum => .undefined
  | .array => .undefined
  | .unknown => .undefined

/-- The process-wide mutable state written by the setup surface
(src/unnamed/part_005): the component registry, the submit button, the error
behavior, the translation function and translations, and the `isSetup` guard.
Control implementations and callbacks are identified abstractly by `Nat`. -/
structure SnowFormState where
  components : String → Option Nat
  submitButton : Option Nat
  onErrorBehavior : Option Nat
  translationFn : Option Nat
  translations : String → Option String
  isSetup : Bool

/-- The `SetupSnowFormOptions` argument of `setupSnowForm`: a required
translation function and optional translations, component map, submit button
and error behavior. -/
structure SetupOptions where
  translate : Nat
  translations : Option (List (String × String))
  components : Option (List (String × Nat))
  submitButton : Option Nat
  onError : Option Nat

/-- The `for` loop of `registerComponents` (src/unnamed/part_005 lines 66-72):
register every entry of the map, last registration winning. -/
def registerComponentsMany (entries : List (String × Nat))
    (reg : String → Option Nat) : String → Option Nat :=
  entries.foldl (fun acc kv => fun k => if k = kv.1 then some kv.2 else acc k) reg

/-- The `setTranslations` merge: overlay the given entries. -/
def setTranslationsMany (entries : List (String × String))
    (tr : String → Option String) : String → Option String :=
  entries.foldl (fun acc kv => fun k => if k = kv.1 then some kv.2 else acc k) tr

/-- `setupSnowForm` from src/unnamed/part_005 lines 386-417: when `isSetup`
is already true the call warns and returns without touching any registry;
otherwise it applies the options and sets `isSetup`. Returns the new state
and the diagnostics emitted. -/
def setupSnowForm (options : SetupOptions) (s : SnowFormState) :
    SnowFormState × List Diagnostic :=
  if s.isSetup then (s, [.duplicateSetupCall])
  else
    let s1 := { s with translationFn := some options.translate }
    let s2 :=
      match options.translations with
      | some ts => { s1 with translations := setTranslationsMany ts s1.translations }
      | none => s1
    let s3 :=
      match options.components with
      | some cs => { s2 with components := registerComponentsMany cs s2.components }
      | none => s2
    let s4 :=
      match options.submitButton with
      | some b => { s3 with submitButton := some b }
      | none => s3
    let s5 :=
      match options.onError with
      | some f => { s4 with onErrorBehavior := some f }
      | none => s4
    ({ s5 with isSetup := true }, [])

/-! ### Helper lemmas -/

/-- The option loop of `isOptional` is an `any` over the options list. -/
theorem isOptionalAnyOption_eq_any : ∀ l : SchemaNodes,
    isOptionalAnyOption l = l.toList.any (fun o => o.isLit || isOptional o)
  | .nil => rfl
  | .cons o rest => by
      simp [isOptionalAnyOption, SchemaNodes.toList, isOptionalAnyOption_eq_any rest,
        Bool.or_assoc]

/-- The option loop of `unwrapSchema` is a `find?` over the options list,
post-composed with `unwrapSchema`. -/
theorem findFirstNonLiteralUnwrapped_eq_find : ∀ l : SchemaNodes,
    findFirstNonLiteralUnwrapped l =
      (l.toList.find? (fun o => !(unwrapSchema o).isLit)).map unwrapSchema
  | .nil => rfl
  | .cons o rest => by
      by_cases hl : (unwrapSchema o).isLit = true <;>
        simp [findFirstNonLiteralUnwrapped, SchemaNodes.toList, List.find?_cons, hl,
          findFirstNonLiteralUnwrapped_eq_find rest]

mutual

/-- The result of `unwrapSchema` is a fixed point of `unwrapSchema`. -/
theorem unwrapSchema_fixed : ∀ n : SchemaNode, unwrapSchema (unwrapSchema n) = unwrapSchema n
  | .optional i => by simpa only [unwrapSchema] using unwrapSchema_fixed i
  | .nullable i => by simpa only [unwrapSchema] using unwrapSchema_fixed i
  | .withDefault i => by simpa only [unwrapSchema] using unwrapSchema_fixed i
  | .effect i => by simpa only [unwrapSchema] using unwrapSchema_fixed i
  | .union opts => by
      cases h : findFirstNonLiteralUnwrapped opts with
      | some u =>
          have hu : unwrapSchema (SchemaNode.union opts) = u := by
            simp [unwrapSchema, h]
          rw [hu]
          exact findFirstNonLiteralUnwrapped_fixed opts u h
      | none => simp [unwrapSchema, h]
  | .str checks => rfl
  | .number => rfl
  | .boolean => rfl
  | .date => rfl
  | .enumN vs => rfl
  | .arrayN e => rfl
  | .literal => rfl
  | .other => rfl

/-- Whatever the option loop of `unwrapSchema` returns is a fixed point of
`unwrapSchema`. -/
theorem findFirstNonLiteralUnwrapped_fixed : ∀ (l : SchemaNodes) (u : SchemaNode),
    findFirstNonLiteralUnwrapped l = some u → unwrapSchema u = u
  | .nil, u, h => by simp [findFirstNonLiteralUnwrapped] at h
  | .cons o rest, u, h => by
      by_cases hl : (unwrapSchema o).isLit = true
      · exact findFirstNonLiteralUnwrapped_fixed rest u
          (by simpa [findFirstNonLiteralUnwrapped, hl] using h)
      · have hu : unwrapSchema o = u := by
          simpa [findFirstNonLiteralUnwrapped, hl] using h
        rw [← hu]
        exact unwrapSchema_fixed o

end

/-- Both branches of the `initializeDefaultValues` loop body assign the
iterated key, so other keys are untouched. -/
theorem initStep_other (provided : JSObj) (overrides : String → Option FieldConfig)
    (acc : JSObj) (kf : String × SchemaNode) (k : String) (h : k ≠ kf.1) :
    initStep provided overrides acc kf k = acc k := by
  unfold initStep
  split <;> simp [objSet, h]

/-- The `initializeDefaultValues` loop body at the iterated key: the provided
value when its indexed read is not `undefined`, the synthesized default
otherwise. -/
theorem initStep_self (provided : JSObj) (overrides : String → Option FieldConfig)
    (acc : JSObj) (kf : String × SchemaNode) :
    initStep provided overrides acc kf kf.1 =
      some (if jsIndex provided kf.1 = .undefined
        then synthDefaultValue (getZodFieldInfo kf.2) (overrides kf.1)
        else jsIndex provided kf.1) := by
  by_cases hp : jsIndex provided kf.1 = .undefined <;>
    simp [initStep, hp, objSet]

/-- Folding the loop body over fields whose keys avoid `k` leaves the
accumulator's binding of `k` alone. -/
theorem foldl_initStep_not_mem (provided : JSObj) (overrides : String → Option FieldConfig) :
    ∀ (shape : List (String × SchemaNode)) (acc : JSObj) (k : String),
      k ∉ shape.map Prod.fst →
      (shape.foldl (initStep provided overrides) acc) k = acc k
  | [], _, _, _ => rfl
  | kf :: rest, acc, k, h => by
      rw [List.map_cons, List.mem_cons, not_or] at h
      rw [List.foldl_cons, foldl_initStep_not_mem provided overrides rest _ k h.2]
      exact initStep_other provided overrides acc kf k h.1

/-- Folding the loop body over a shape with distinct keys produces, at a key
of the shape, exactly the loop body's value for that field. -/
theorem foldl_initStep_mem (provided : JSObj) (overrides : String → Option FieldConfig) :
    ∀ (shape : List (String × SchemaNode)) (acc : JSObj) (k : String) (node : SchemaNode),
      (shape.map Prod.fst).Nodup → (k, node) ∈ shape →
      (shape.foldl (initStep provided overrides) acc) k =
        some (if jsIndex provided k = .undefined
          then synthDefaultValue (getZodFieldInfo node) (overrides k)
          else jsIndex provided k)
  | [], _, _, _, _, hmem => absurd hmem (List.not_mem_nil _)
  | kf :: rest, acc, k, node, hnd, hmem => by
      rw [List.map_cons, List.nodup_cons] at hnd
      rw [List.foldl_cons]
      rcases List.mem_cons.mp hmem with heq | hmemr
      · have hkf : kf = (k, node) := heq.symm
        subst hkf
        rw [foldl_initStep_not_mem provided overrides rest _ k hnd.1]
        exact initStep_self provided overrides acc (k, node)
      · exact foldl_initStep_mem provided overrides rest _ k node hnd.2 hmemr

/-- Lookup characterization of `initializeDefaultValues` at a schema key:
a provided binding (even to `undefined` or `null`) wins via the final
spread; otherwise the synthesized default of the field's classification and
override. -/
theorem initializeDefaultValues_lookup (shape : List (String × SchemaNode))
    (provided : JSObj) (overrides : String → Option FieldConfig)
    (k : String) (node : SchemaNode)
    (hnd : (shape.map Prod.fst).Nodup) (hmem : (k, node) ∈ shape) :
    initializeDefaultValues shape provided overrides k =
      match provided k with
      | some v => some v
      | none => some (synthDefaultValue (getZodFieldInfo node) (overrides k)) := by
  have hfold := foldl_initStep_mem provided overrides shape emptyObj k node hnd hmem
  unfold initializeDefaultValues
  cases hp : provided k with
  | some v => simp [Option.orElse, hp]
  | none =>
      have hj : jsIndex provided k = .undefined := by simp [jsIndex, hp]
      simp [Option.orElse, hp, hfold, hj]

/-! ### Claim theorems -/

/-- C6: the optionality detector, applied to the original non-unwrapped node,
returns true for every Optional and Nullable node regardless of the inner
node; for a Union it returns true exactly when some option is a Literal or is
itself optional (recursively); and it returns false for every other shape,
including WithDefault and Effect wrappers. -/
theorem isOptional_characterization :
    (∀ x, isOptional (.optional x) = true)
    ∧ (∀ x, isOptional (.nullable x) = true)
    ∧ (∀ opts, isOptional (.union opts) = true ↔
        ∃ o ∈ opts.toList, o.isLit = true ∨ isOptional o = true)
    ∧ (∀ checks, isOptional (.str checks) = false)
    ∧ isOptional .number = false
    ∧ isOptional .boolean = false
    ∧ isOptional .date = false
    ∧ (∀ vs, isOptional (.enumN vs) = false)
    ∧ (∀ e, isOptional (.arrayN e) = false)
    ∧ isOptional .literal = false
    ∧ isOptional .other = false
    ∧ (∀ x, isOptional (.withDefault x) = false)
    ∧ (∀ x, isOptional (.effect x) = false) := by
  refine ⟨fun _ => rfl, fun _ => rfl, fun opts => ?_, fun _ => rfl, rfl, rfl, rfl,
    fun _ => rfl, fun _ => rfl, rfl, rfl, fun _ => rfl, fun _ => rfl⟩
  simp [isOptional, isOptionalAnyOption_eq_any, List.any_eq_true]

/-- C10: the pre-submit empty-value normalizer rewrites an entry exactly when
its override sets a directive whose emptiness test matches the value:
`emptyAsNull`/`emptyAsUndefined` fire only on empty or whitespace-only
strings (leaving `null`/`undefined` untouched), `emptyAsZero` also fires on
`null`/`undefined`; entries with no override and non-empty values pass
through unchanged. -/
theorem applyEmptyValueOverrides_characterization
    (values : List (String × JSValue)) (overrides : String → Option FieldConfig)
    (o : FieldConfig) (v : JSValue) :
    (applyEmptyValueOverrides values overrides =
      values.map (fun kv => (kv.1, transformValue (overrides kv.1) kv.2)))
    ∧ (transformValue none v = v)
    ∧ (o.emptyAsNull = false → o.emptyAsUndefined = false → o.emptyAsZero = false →
        transformValue (some o) v = v)
    ∧ (isEmptyStringJS v = false → jsIsNull v = false → jsIsUndefined v = false →
        transformValue (some o) v = v)
    ∧ (o.emptyAsNull = true → isEmptyStringJS v = true →
        transformValue (some o) v = .null)
    ∧ (o.emptyAsNull = false → o.emptyAsUndefined = true → isEmptyStringJS v = true →
        transformValue (some o) v = .undefined)
    ∧ (o.emptyAsZero = true → (jsIsNull v = true ∨ jsIsUndefined v = true) →
        transformValue (some o) v = .num 0)
    ∧ (o.emptyAsNull = false → o.emptyAsUndefined = false → o.emptyAsZero = true →
        isEmptyStringJS v = true → transformValue (some o) v = .num 0)
    ∧ ((jsIsNull v = true ∨ jsIsUndefined v = true) → o.emptyAsZero = false →
        transformValue (some o) v = v) := by
  refine ⟨rfl, rfl, ?_, ?_, ?_, ?_, ?_, ?_, ?_⟩ <;> intros
  · simp_all [transformValue]
  · simp_all [transformValue]
  · simp_all [transformValue]
  · simp_all [transformValue]
  · rcases v with s | n | b | _ | _ <;> simp_all [transformValue, jsIsNull, jsIsUndefined, isEmptyStringJS]
  · simp_all [transformValue]
  · rcases v with s | n | b | _ | _ <;> simp_all [transformValue, jsIsNull, jsIsUndefined, isEmptyStringJS]

/-- Witness for C10: with only `emptyAsZero` set, an `undefined` value is
rewritten to `0`. -/
theorem applyEmptyValueOverrides_witness :
    (jsIsNull JSValue.undefined = true ∨ jsIsUndefined JSValue.undefined = true)
    ∧ transformValue (some ⟨none, false, false, true, false⟩) JSValue.undefined = JSValue.num 0 := by
  refine ⟨by decide, ?_⟩
  exact (applyEmptyValueOverrides_characterization [] (fun _ => none)
    ⟨none, false, false, true, false⟩ JSValue.undefined).2.2.2.2.2.2.1 rfl (by decide)

/-- C9: a second call to `setupSnowForm` is a no-op: it returns the state of
the first call unchanged (components, submit button, error behavior,
translation registries included) and emits the duplicate-call diagnostic. -/
theorem setupSnowForm_second_call_noop (s : SnowFormState) (o1 o2 : SetupOptions) :
    setupSnowForm o2 (setupSnowForm o1 s).1 = ((setupSnowForm o1 s).1, [.duplicateSetupCall]) := by
  unfold setupSnowForm
  by_cases h : s.isSetup <;> simp [h]

/-- C2 counterexample: for a number element, the array Add action appends
`0`, not the `null` value prescribed by the single-value default policy of
the spec (§4.4) that the claim references. -/
theorem addArrayItem_default_counterexample :
    addArrayItem (.mk .number false false none none) [] = [JSValue.num 0]
    ∧ specSingleValueDefault .number = JSValue.null
    ∧ JSValue.num 0 ≠ JSValue.null := by
  refine ⟨rfl, rfl, by decide⟩

/-- C2 (amended): the array Add action appends exactly one element, leaving
the existing elements and their order unchanged, but the appended value comes
from the renderer's own table keyed by the element base type: empty string
for string, `0` for number, `false` for boolean, the first declared enum
value (or empty string when there is none) for enum, and empty string for
every other kind. -/
theorem addArrayItem_appends_renderer_default (info : SchemaFieldInfo) (xs : List JSValue) :
    addArrayItem info xs =
      xs ++ [match info.baseType, info.enumValues with
        | .string, _ => JSValue.str ""
        | .number, _ => JSValue.num 0
        | .boolean, _ => JSValue.bool false
        | .enum, some (v :: _) => JSValue.str v
        | .enum, _ => JSValue.str ""
        | _, _ => JSValue.str ""]
    ∧ (addArrayItem info xs).take xs.length = xs
    ∧ (addArrayItem info xs).length = xs.length + 1 := by
  refine ⟨?_, ?_, ?_⟩
  · rcases info with ⟨b, opt, em, vs, ei⟩
    cases b <;>
      first
      | rfl
      | (rcases vs with _ | ⟨_ | ⟨v, rest⟩⟩ <;> rfl)
  · simp [addArrayItem, List.take_left]
  · simp [addArrayItem]

/-- C5 counterexample: the classifier classifies an array field with base
kind `array` yet leaves the nested element classification absent, so
"nested element classification present iff base kind is array" fails. -/
theorem classifier_array_element_counterexample :
    (getZodFieldInfo (.arrayN (.str []))).baseType = .array
    ∧ (getZodFieldInfo (.arrayN (.str []))).arrayElementInfo = none := by
  exact ⟨rfl, rfl⟩

/-- C5 (amended): every classification produced by the classifier has
`enumValues` present iff the base kind is enum, never carries a nested
element classification (even for base kind array), and hence never has both
present. -/
theorem classifier_presence_invariant (field : SchemaNode) :
    ((getZodFieldInfo field).enumValues.isSome = true ↔
      (getZodFieldInfo field).baseType = .enum)
    ∧ (getZodFieldInfo field).arrayElementInfo = none
    ∧ ¬((getZodFieldInfo field).enumValues.isSome = true
        ∧ (getZodFieldInfo field).arrayElementInfo.isSome = true) := by
  unfold getZodFieldInfo
  cases h : unwrapSchema field <;>
    simp [SchemaFieldInfo.baseType, SchemaFieldInfo.enumValues, SchemaFieldInfo.arrayElementInfo]

/-- Witness for C5 (amended): an enum field's classification carries its enum
values and classifies as enum. -/
theorem classifier_presence_invariant_witness :
    (getZodFieldInfo (.enumN ["a", "b"])).enumValues.isSome = true
    ∧ (getZodFieldInfo (.enumN ["a", "b"])).baseType = .enum := by
  have h := classifier_presence_invariant (.enumN ["a", "b"])
  exact ⟨by decide, h.1.mp (by decide)⟩

/-- C3 counterexample: with `emptyAsNull` and `emptyAsZero` both set on a
number field, the default-value synthesizer yields `0` — `emptyAsZero` wins
over `emptyAsNull` there, contradicting the claimed null-over-zero
precedence. -/
theorem synth_precedence_counterexample :
    initializeDefaultValues [("quantity", SchemaNode.number)] emptyObj
      (fun _ => some ⟨none, true, false, true, false⟩) "quantity" = some (JSValue.num 0)
    ∧ JSValue.num 0 ≠ JSValue.null := by
  refine ⟨by decide, by decide⟩

/-- C3 (amended): the pre-submit normalizer applies the directives with
precedence null over undefined over zero, but the default-value synthesizer
applies, for string fields, null over undefined (zero never applies) and,
for number fields, zero over null over undefined. -/
theorem empty_directive_precedence (o : FieldConfig) (v : JSValue) (k : String) :
    (isEmptyStringJS v = true →
      transformValue (some o) v =
        (if o.emptyAsNull then .null
          else if o.emptyAsUndefined then .undefined
          else if o.emptyAsZero then .num 0
          else v))
    ∧ (initializeDefaultValues [(k, .number)] emptyObj (fun _ => some o) k =
        some (if o.emptyAsZero then .num 0
          else if o.emptyAsNull then .null
          else if o.emptyAsUndefined then .undefined
          else .null))
    ∧ (initializeDefaultValues [(k, .str [])] emptyObj (fun _ => some o) k =
        some (if o.emptyAsNull then .null
          else if o.emptyAsUndefined then .undefined
          else .str "")) := by
  rcases o with ⟨t, en, eu, ez, r⟩
  refine ⟨fun h => ?_, ?_, ?_⟩ <;>
    cases en <;> cases eu <;> cases ez <;>
      simp_all [transformValue, initializeDefaultValues, initStep, objSet, jsIndex, emptyObj,
        synthDefaultValue, getZodFieldInfo, unwrapSchema, isOptional]

/-- Witness for C3 (amended): with all three directives set, an empty string
is normalized to `null` by the pre-submit normalizer. -/
theorem empty_directive_precedence_witness :
    isEmptyStringJS (JSValue.str "") = true
    ∧ transformValue (some ⟨none, true, true, true, false⟩) (JSValue.str "") = JSValue.null := by
  refine ⟨by decide, ?_⟩
  have h := (empty_directive_precedence ⟨none, true, true, true, false⟩ (JSValue.str "") "q").1
    (by decide)
  simpa using h

/-- C1 counterexample: with an empty registry, a plain string field (resolved
type `text`) is rendered with the built-in default input and no diagnostic —
the missing registration is silently replaced by a built-in default widget. -/
theorem missing_registration_counterexample :
    (fun _ => (none : Option Component)) (resolveFieldType (.mk .string false false none none) none) = none
    ∧ renderSnowFormField (fun _ => none) (.mk .string false false none none) none =
        ⟨some (.control .defaultInput), []⟩ := by
  exact ⟨rfl, rfl⟩

/-- C1 (amended): when the resolved field type has no registered control,
`SnowFormField` silently substitutes the built-in default widget for that
type when one exists; only when there is also no built-in default does the
field render nothing with a diagnostic naming the missing type. The array
element renderer, by contrast, always renders nothing with a diagnostic when
the element type is unregistered. -/
theorem missing_registration_dispatch (registry : String → Option Component)
    (info : SchemaFieldInfo) (override : Option FieldConfig)
    (hhidden : resolveFieldType info override ≠ "hidden")
    (hrender : (override.map FieldConfig.hasRender).getD false = false)
    (hreg : registry (resolveFieldType info override) = none) :
    (∀ c, getDefaultComponent (resolveFieldType info override) = some c →
        renderSnowFormField registry info override = ⟨some (.control c), []⟩)
    ∧ (getDefaultComponent (resolveFieldType info override) = none →
        renderSnowFormField registry info override =
          ⟨none, [.noComponentForType (resolveFieldType info override)]⟩)
    ∧ arrayElementDispatch registry info override =
        (none, [.noComponentForArrayElementType (resolveFieldType info override)]) := by
  refine ⟨fun c hc => ?_, fun hc => ?_, ?_⟩
  · simp [renderSnowFormField, hhidden, hrender, hreg, hc, Option.orElse]
  · simp [renderSnowFormField, hhidden, hrender, hreg, hc, Option.orElse]
  · simp [arrayElementDispatch, hreg]

/-- Witness for C1 (amended): a custom type tag with no registration and no
built-in default renders nothing and warns naming the type. -/
theorem missing_registration_dispatch_witness :
    resolveFieldType (.mk .string false false none none)
        (some ⟨some "rich-text", false, false, false, false⟩) ≠ "hidden"
    ∧ renderSnowFormField (fun _ => none) (.mk .string false false none none)
        (some ⟨some "rich-text", false, false, false, false⟩) =
        ⟨none, [.noComponentForType "rich-text"]⟩ := by
  refine ⟨by decide, ?_⟩
  have h := missing_registration_dispatch (fun _ => none) (.mk .string false false none none)
    (some ⟨some "rich-text", false, false, false, false⟩) (by decide) (by decide) rfl
  exact h.2.1 (by decide)

/-- C7: on a Union (reached directly or after peeling wrapper layers, which
unwrap transparently), `unwrapSchema` returns the unwrapped form of the first
option in declaration order whose unwrapped form is not a Literal; when every
option unwraps to a Literal it returns the Union itself, which the classifier
then classifies as `unknown`. -/
theorem unwrapSchema_union_policy (opts : SchemaNodes) :
    (∀ o, opts.toList.find? (fun x => !(unwrapSchema x).isLit) = some o →
        unwrapSchema (.union opts) = unwrapSchema o)
    ∧ ((∀ o ∈ opts.toList, (unwrapSchema o).isLit = true) →
        unwrapSchema (.union opts) = .union opts
        ∧ (getZodFieldInfo (.union opts)).baseType = .unknown)
    ∧ (∀ i, unwrapSchema (.optional i) = unwrapSchema i)
    ∧ (∀ i, unwrapSchema (.nullable i) = unwrapSchema i)
    ∧ (∀ i, unwrapSchema (.withDefault i) = unwrapSchema i)
    ∧ (∀ i, unwrapSchema (.effect i) = unwrapSchema i) := by
  refine ⟨fun o h => ?_, fun hall => ?_, fun _ => rfl, fun _ => rfl, fun _ => rfl, fun _ => rfl⟩
  · have hff : findFirstNonLiteralUnwrapped opts = some (unwrapSchema o) := by
      rw [findFirstNonLiteralUnwrapped_eq_find, h]; rfl
    simp [unwrapSchema, hff]
  · have hnone : opts.toList.find? (fun x => !(unwrapSchema x).isLit) = none := by
      rw [List.find?_eq_none]
      intro x hx
      simp [hall x hx]
    have hff : findFirstNonLiteralUnwrapped opts = none := by
      rw [findFirstNonLiteralUnwrapped_eq_find, hnone]; rfl
    have h1 : unwrapSchema (SchemaNode.union opts) = .union opts := by
      simp [unwrapSchema, hff]
    refine ⟨h1, ?_⟩
    simp [getZodFieldInfo, h1]

/-- Witness for C7: in the union `Literal | String` the first non-literal
option is the string, and `unwrapSchema` selects it; in the union of a single
Literal, every option unwraps to a Literal and classification is `unknown`. -/
theorem unwrapSchema_union_policy_witness :
    ((SchemaNodes.cons .literal (.cons (.str []) .nil)).toList.find?
        (fun x => !(unwrapSchema x).isLit) = some (.str []))
    ∧ unwrapSchema (.union (.cons .literal (.cons (.str []) .nil))) = unwrapSchema (.str [])
    ∧ (∀ o ∈ (SchemaNodes.cons .literal .nil).toList, (unwrapSchema o).isLit = true)
    ∧ (getZodFieldInfo (.union (.cons .literal .nil))).baseType = .unknown := by
  refine ⟨by decide, ?_, by decide, ?_⟩
  · exact (unwrapSchema_union_policy _).1 (.str []) (by decide)
  · exact ((unwrapSchema_union_policy _).2.1 (by decide)).2

/-- C8: `unwrapSchema` is idempotent — unwrapping an already-unwrapped node
changes nothing. -/
theorem unwrapSchema_idempotent (n : SchemaNode) :
    unwrapSchema (unwrapSchema n) = unwrapSchema n :=
  unwrapSchema_fixed n

/-- C4: default-value synthesis is total over the schema's field names; a
field with no caller-provided entry and no override yields the per-kind
default, a number field under `emptyAsZero` yields `0`, and every
caller-provided binding wins over the synthesized default — even an explicit
`undefined` or `null`, and a provided `0` in particular is preserved
verbatim. -/
theorem initializeDefaultValues_total_and_layered
    (shape : List (String × SchemaNode)) (provided : JSObj)
    (overrides : String → Option FieldConfig) (k : String) (node : SchemaNode)
    (hnd : (shape.map Prod.fst).Nodup) (hmem : (k, node) ∈ shape) :
    (∃ v, initializeDefaultValues shape provided overrides k = some v)
    ∧ (provided k = none → overrides k = none →
        initializeDefaultValues shape provided overrides k =
          some (match (getZodFieldInfo node).baseType with
            | .string => JSValue.str ""
            | .number => JSValue.null
            | .boolean => JSValue.bool false
            | .date => JSValue.null
            | .enum => JSValue.undefined
            | .array => JSValue.undefined
            | .unknown => JSValue.undefined))
    ∧ (∀ o, provided k = none → overrides k = some o → o.emptyAsZero = true →
        (getZodFieldInfo node).baseType = .number →
        initializeDefaultValues shape provided overrides k = some (JSValue.num 0))
    ∧ (∀ v, provided k = some v →
        initializeDefaultValues shape provided overrides k = some v) := by
  have hlook := initializeDefaultValues_lookup shape provided overrides k node hnd hmem
  refine ⟨?_, fun hp ho => ?_, fun o hp ho hz hb => ?_, fun v hp => ?_⟩
  · rw [hlook]
    cases provided k <;> exact ⟨_, rfl⟩
  · rw [hlook, hp]
    rcases hinfo : getZodFieldInfo node with ⟨b, opt, em, vs, ei⟩
    cases b <;> simp [synthDefaultValue, hinfo, ho]
  · rw [hlook, hp]
    rcases hinfo : getZodFieldInfo node with ⟨b, opt, em, vs, ei⟩
    rw [hinfo] at hb
    simp at hb
    subst hb
    simp [synthDefaultValue, hinfo, ho, hz]
  · rw [hlook, hp]

/-- Witness for C4: a one-field number schema with distinct keys, no provided
value and no override synthesizes `null`. -/
theorem initializeDefaultValues_witness :
    (([("a", SchemaNode.number)].map Prod.fst).Nodup
      ∧ ("a", SchemaNode.number) ∈ [("a", SchemaNode.number)])
    ∧ initializeDefaultValues [("a", SchemaNode.number)] emptyObj (fun _ => none) "a" =
        some JSValue.null := by
  refine ⟨⟨by decide, by decide⟩, ?_⟩
  have h := initializeDefaultValues_total_and_layered [("a", SchemaNode.number)] emptyObj
    (fun _ => none) "a" SchemaNode.number (by decide) (by decide)
  exact h.2.1 rfl rfl

end SnowForm
